import Mathlib

/-!
Shallow embedding of the fredy listing-ingestion core: the ImmoScout provider
(`src/lib/provider/immoscout.js`), the geocoding service
(`src/lib/services/geocoding/geocoding.js`) and the notification dispatcher.
JavaScript strings are embedded as `List Char`; absent / `undefined` / `null`
values as `Option`; code that can throw returns `Except`.
-/

namespace Fredy

/-- Character class of the JavaScript regex class `\w`: ASCII letters, digits
and underscore. -/
def isWordChar (c : Char) : Bool :=
  c.isAlpha || c.isDigit || c = '_'

/-- Character class of the JavaScript regex class `\s` (restricted to the ASCII
whitespace characters, which are the only ones occurring in the modelled data). -/
def isJSSpace (c : Char) : Bool :=
  c = ' ' || c = '\t' || c = '\n' || c = '\r' || c = '\x0b' || c = '\x0c'

/-- JavaScript `String.prototype.trim`, on the modelled whitespace class. -/
def jsTrim (s : List Char) : List Char :=
  ((s.dropWhile isJSSpace).reverse.dropWhile isJSSpace).reverse

/-- Truthiness of a JavaScript string: every string except the empty string. -/
def jsTruthyStr (s : List Char) : Bool :=
  !s.isEmpty

/-- Case-insensitive literal match of `pat` against a front part of `s`
(the `/i` flag of the salutation regexes); returns the actually matched text
and the remainder. -/
def stripCaseInsensitive : List Char → List Char → Option (List Char × List Char)
  | [], s => some ([], s)
  | _ :: _, [] => none
  | p :: ps, c :: cs =>
    if p.toLower = c.toLower then
      (stripCaseInsensitive ps cs).map (fun pr => (c :: pr.1, pr.2))
    else
      none

/-- Matcher for the tail `\s(\w+)(?:\s(\w+))?$` of both salutation regexes:
one whitespace, a first name token, optionally one whitespace and a second
name token, then end of input.  Returns the two captured groups. -/
def matchNameTail (s : List Char) : Option (List Char × Option (List Char)) :=
  match s with
  | [] => none
  | c :: rest =>
    if isJSSpace c then
      let w1 := rest.takeWhile isWordChar
      let r1 := rest.dropWhile isWordChar
      if w1.isEmpty then none
      else
        match r1 with
        | [] => some (w1, none)
        | c2 :: rest2 =>
          if isJSSpace c2 then
            let w2 := rest2.takeWhile isWordChar
            let r2 := rest2.dropWhile isWordChar
            if w2.isEmpty then none
            else if r2.isEmpty then some (w1, some w2) else none
          else none
    else none

/-- Alternation over the honorific literals of a salutation regex
`^(hon1|hon2|...)\s(\w+)(?:\s(\w+))?$`: try each honorific in order, and on
success return the three capture groups (matched honorific text, first name
token, optional second name token). -/
def matchHonorifics : List (List Char) → List Char → Option (List Char × List Char × Option (List Char))
  | [], _ => none
  | h :: hs, t =>
    match stripCaseInsensitive h t with
    | some (m1, rest) =>
      match matchNameTail rest with
      | some (w1, w2) => some (m1, w1, w2)
      | none => matchHonorifics hs t
    | none => matchHonorifics hs t

/-- Honorific alternatives of the male pattern `/^(Mr\.|Herr)\s(\w+)(?:\s(\w+))?$/i`. -/
def malePattern : List (List Char) := ["Mr.".toList, "Herr".toList]

/-- Honorific alternatives of the female pattern `/^(Ms\.|Mrs\.|Frau)\s(\w+)(?:\s(\w+))?$/i`. -/
def femalePattern : List (List Char) := ["Ms.".toList, "Mrs.".toList, "Frau".toList]

inductive Gender where
  | male
  | female
deriving DecidableEq, Repr

structure Salutation where
  gender : Gender
  lastName : List Char
deriving DecidableEq, Repr

/-- The expression `match[1] && match[2] ? match[2] : match[1]` from
`parseSalutation` in `src/lib/provider/immoscout.js` (used by both the male and
the female branch there): `m1` is the matched honorific (group 1), `m2` the
first name token (group 2); group 3 is not consulted. -/
def lastNameFromMatch (m1 m2 : List Char) (_m3 : Option (List Char)) : List Char :=
  if jsTruthyStr m1 && jsTruthyStr m2 then m2 else m1

/-- Embedding of `parseSalutation` from `src/lib/provider/immoscout.js`
(lines 83 to 112).  The female branch of the copy embedded in
`src/lib/services/geocoding/geocoding.js` (lines 120 to 152) is identical.
`none` as input models a missing or non-string `name` argument, for which the
source returns `null` at the first guard. -/
def parseSalutation : Option (List Char) → Option Salutation
  | none => none
  | some name =>
    if !(jsTruthyStr name) then none
    else
      let trimmedName := jsTrim name
      match matchHonorifics malePattern trimmedName with
      | some (m1, m2, m3) => some ⟨Gender.male, lastNameFromMatch m1 m2 m3⟩
      | none =>
        match matchHonorifics femalePattern trimmedName with
        | some (m1, m2, m3) => some ⟨Gender.female, lastNameFromMatch m1 m2 m3⟩
        | none => none

/-- JavaScript numbers as far as the modelled code distinguishes them: a finite
value (integral values suffice for every modelled computation; decimal
formatting of non-integral doubles plays no role in the claims), `NaN` and the
two infinities. -/
inductive JSNum where
  | fin (i : Int)
  | nan
  | inf
  | ninf
deriving DecidableEq, Repr

/-- Parsed JSON values (plus `undefined`), the shape of the bodies returned by
`response.json()`. -/
inductive JSVal where
  | jundefined
  | jnull
  | jbool (b : Bool)
  | jnum (n : JSNum)
  | jstr (s : List Char)
  | jarr (elems : List JSVal)
  | jobj (fields : List (List Char × JSVal))

/-- Errors a modelled JavaScript expression can throw. -/
inductive JSErr where
  | typeError
deriving DecidableEq, Repr

/-- Property lookup in an object literal: first binding wins, absent keys give
`undefined`. -/
def lookupField : List (List Char × JSVal) → List Char → JSVal
  | [], _ => .jundefined
  | (k, v) :: rest, key => if k = key then v else lookupField rest key

/-- A plain member access `v.key`: throws a `TypeError` on `undefined`/`null`,
looks the key up on objects, and yields `undefined` on other primitives. -/
def getMember : JSVal → List Char → Except JSErr JSVal
  | .jundefined, _ => .error .typeError
  | .jnull, _ => .error .typeError
  | .jobj fs, key => .ok (lookupField fs key)
  | _, _ => .ok .jundefined

/-- An optional-chaining member access `v?.key`: short-circuits to `undefined`
on `undefined`/`null`, otherwise behaves like a plain access. -/
def getMemberOpt : JSVal → List Char → Except JSErr JSVal
  | .jundefined, _ => .ok .jundefined
  | .jnull, _ => .ok .jundefined
  | v, key => getMember v key

/-- JavaScript loose equality against `null` (`v == null`): true exactly for
`null` and `undefined`. -/
def looseEqNull : JSVal → Bool
  | .jundefined => true
  | .jnull => true
  | _ => false

/-- The test `typeof v === 'number'`; note `NaN` and the infinities are of type
`number`. -/
def typeofIsNumber : JSVal → Bool
  | .jnum _ => true
  | _ => false

/-- Observable outcome of `reverseGeocode`'s argument-validation phase: either
it returns `null` without any network activity, or it proceeds to the throttled
`fetch` with the given coordinates interpolated into the request URL. -/
inductive GeoOutcome where
  | nullNoCall
  | fetchAttempt (lat lon : JSVal)

/-- Embedding of the argument validation of `reverseGeocode` from
`src/lib/services/geocoding/geocoding.js` (lines 33 to 44): the two guards
`lat == null || lon == null` and `typeof lat !== 'number' || typeof lon !== 'number'`
each return `null` before any network call; past them the function builds the
URL and performs the throttled fetch (whose network part is outside the model). -/
def reverseGeocode (lat lon : JSVal) : GeoOutcome :=
  if looseEqNull lat || looseEqNull lon then .nullNoCall
  else if !typeofIsNumber lat || !typeofIsNumber lon then .nullNoCall
  else .fetchAttempt lat lon

/-- String interpolation of a JavaScript value into a template literal
(arrays and objects are simplified; the interpolated values here are listing
ids, which are numbers or strings). -/
def jsToStr : JSVal → List Char
  | .jundefined => "undefined".toList
  | .jnull => "null".toList
  | .jbool true => "true".toList
  | .jbool false => "false".toList
  | .jnum (.fin i) => (toString i).toList
  | .jnum .nan => "NaN".toList
  | .jnum .inf => "Infinity".toList
  | .jnum .ninf => "-Infinity".toList
  | .jstr s => s
  | .jarr _ => "".toList
  | .jobj _ => "[object Object]".toList

/-- `Array.prototype.map` with a callback that can throw: the first thrown
error aborts and propagates. -/
def mapExc (f : α → Except JSErr β) : List α → Except JSErr (List β)
  | [] => .ok []
  | x :: xs => do
    let y ← f x
    let ys ← mapExc f xs
    .ok (y :: ys)

/-- `Array.prototype.filter` with a predicate that can throw: the first thrown
error aborts and propagates. -/
def filterExc (p : α → Except JSErr Bool) : List α → Except JSErr (List α)
  | [] => .ok []
  | x :: xs => do
    let b ← p x
    let ys ← filterExc p xs
    .ok (if b then x :: ys else ys)

/-- Array destructuring `const [a, b] = v`: arrays yield their first two
elements (`undefined` past the end), strings are iterable and yield their first
two characters as one-character strings, every other value throws a
`TypeError` (not iterable). -/
def destructurePair : JSVal → Except JSErr (JSVal × JSVal)
  | .jarr [] => .ok (.jundefined, .jundefined)
  | .jarr [x] => .ok (x, .jundefined)
  | .jarr (x :: y :: _) => .ok (x, y)
  | .jstr [] => .ok (.jundefined, .jundefined)
  | .jstr [c] => .ok (.jstr [c], .jundefined)
  | .jstr (c1 :: c2 :: _) => .ok (.jstr [c1], .jstr [c2])
  | _ => .error .typeError

/-- `metaInformation.baseUrl` of the ImmoScout provider. -/
def immoscoutBaseUrl : List Char := "https://www.immobilienscout24.de/".toList

/-- The template literal building a listing link from the native id. -/
def exposeLink (idVal : JSVal) : List Char :=
  immoscoutBaseUrl ++ "expose/".toList ++ jsToStr idVal

/-- The filter callback `item.type === 'EXPOSE_RESULT'` (plain access, so a
`null` array element throws). -/
def isExposeResult (item : JSVal) : Except JSErr Bool := do
  let t ← getMember item "type".toList
  .ok (match t with
       | .jstr s => s = "EXPOSE_RESULT".toList
       | _ => false)

/-- The raw item object built by `getListings` for each expose result. -/
structure RawSearchItem where
  id : JSVal
  price : JSVal
  size : JSVal
  title : JSVal
  link : List Char
  address : JSVal

/-- The map callback of `getListings`: `item = expose.item`, destructure
`item.attributes` into `[price, size]`, then build the raw item object
(`price?.value`, `size?.value` and `item.address?.line` use optional
chaining, the other accesses are plain). -/
def toRawSearchItem (expose : JSVal) : Except JSErr RawSearchItem := do
  let item ← getMember expose "item".toList
  let attrs ← getMember item "attributes".toList
  let pair ← destructurePair attrs
  let idVal ← getMember item "id".toList
  let priceVal ← getMemberOpt pair.1 "value".toList
  let sizeVal ← getMemberOpt pair.2 "value".toList
  let titleVal ← getMember item "title".toList
  let addrObj ← getMember item "address".toList
  let addrLine ← getMemberOpt addrObj "line".toList
  .ok { id := idVal, price := priceVal, size := sizeVal, title := titleVal,
        link := exposeLink idVal, address := addrLine }

/-- The upstream HTTP response as `getListings` observes it: the `ok` flag and
the JSON-decoded body. -/
structure FetchResponse where
  ok : Bool
  body : JSVal

/-- Embedding of `getListings` from `src/lib/provider/immoscout.js` (lines 49
to 78).  A non-ok status logs and returns `[]`.  Otherwise
`responseBody.resultListItems` is accessed with a plain member access and
`.filter` is called on it, which throws a `TypeError` whenever that value is
not an array; the surviving expose results are mapped to raw items. -/
def resultListItemsKey : List Char := "resultListItems".toList

def getListings (resp : FetchResponse) : Except JSErr (List RawSearchItem) :=
  if !resp.ok then .ok []
  else
    match getMember resp.body resultListItemsKey with
    | .error e => .error e
    | .ok (.jarr items) =>
      match filterExc isExposeResult items with
      | .error e => .error e
      | .ok kept => mapExc toRawSearchItem kept
    | .ok _ => .error .typeError

/-- The helper `nullOrEmpty` from `src/lib/provider/immoscout.js` (lines 193
to 195): `val == null || val.length === 0` on a possibly absent string. -/
def nullOrEmpty : Option (List Char) → Bool
  | none => true
  | some s => s.length == 0

/-- JavaScript `String.prototype.replace` with a plain string pattern: replace
only the first (leftmost) occurrence. -/
def replaceFirst (pat repl : List Char) : List Char → List Char
  | [] => []
  | c :: rest =>
    if pat.isPrefixOf (c :: rest) then repl ++ (c :: rest).drop pat.length
    else c :: replaceFirst pat repl rest

/-- Does the string contain `)` immediately followed by `,`? -/
def containsCloseComma : List Char → Bool
  | ')' :: ',' :: _ => true
  | _ :: rest => containsCloseComma rest
  | [] => false

/-- Line terminators, which the regex class `.` does not match. -/
def isLineTerminator (c : Char) : Bool := c = '\n' || c = '\r'

/-- Effect of `.replace(/\(.*\),.*$/, '')` on an address string: the regex
matches from the leftmost `(` that is followed (within the same line, since
`.` does not cross line terminators and `$` only matches at the very end)
by `),`, and the match extends to the end of the string, so everything from
that `(` on is removed. -/
def cutParenAddress : List Char → List Char
  | [] => []
  | c :: rest =>
    if c = '(' && containsCloseComma rest && rest.all (fun ch => !isLineTerminator ch) then []
    else c :: cutParenAddress rest

/-- Tag encoding a price for `buildHash`; distinct prices get distinct tags
and no tag contains the separator character. -/
def priceTag : Option Nat → List Char
  | none => ['u']
  | some n => 'n' :: List.replicate n 'I'

/-- Modelled from the spec: `buildHash` is imported from `src/lib/utils.js`,
which is not among the provided sources.  The spec describes it as a stable
hash making `Listing.id` a pure function of the pair (source-native id, price),
with a price change yielding a new id.  It is modelled as an injective string
encoding of that pair.  Only those spec-granted properties — being a pure
function of the pair, and distinct prices giving distinct ids — are used by
the claim theorems; incidental features of this concrete encoding (such as its
output length) are model artifacts and are relied upon nowhere. -/
def buildHash (id : List Char) (price : Option Nat) : List Char :=
  priceTag price ++ [','] ++ id

/-- A raw item as produced by the search-result mapping, with the fields named
in `config.crawlFields` of `src/lib/provider/immoscout.js`: absent or `null`
string fields are `none`. -/
structure RawItem where
  id : List Char
  price : Option Nat
  size : Option Nat
  title : Option (List Char)
  link : List Char
  address : Option (List Char)
deriving DecidableEq, Repr

/-- Embedding of `normalize` from `src/lib/provider/immoscout.js` (lines 196
to 201): placeholder substitution for null/empty title and address, `NEU`
stripped from the title, the parenthesised tail cut from the address, the id
replaced by `buildHash(o.id, o.price)`, and the result assigned back onto the
argument object (`Object.assign(o, ...)`, modelled by the record update). -/
def normalize (o : RawItem) : RawItem :=
  let title := if nullOrEmpty o.title then "NO TITLE FOUND".toList
               else replaceFirst "NEU".toList [] (o.title.getD [])
  let address := if nullOrEmpty o.address then "NO ADDRESS FOUND".toList
                 else jsTrim (cutParenAddress (o.address.getD []))
  let id := buildHash o.id o.price
  { o with id := id, title := some title, address := some address }

/-- One entry of a section's `attributes` array in the expose detail response;
`label` and `text` may be absent. -/
structure ExposeAttribute where
  label : Option (List Char)
  text : Option (List Char)
deriving DecidableEq, Repr

/-- The `location` object of a `MAP` section, with its `lat` and `lng` members
as raw JavaScript values. -/
structure ExposeLocation where
  lat : JSVal
  lng : JSVal

/-- One entry of `responseBody.sections` in the expose detail response. -/
structure ExposeSection where
  type : List Char
  attributes : Option (List ExposeAttribute)
  location : Option ExposeLocation

/-- The parts of the expose detail response body consumed by
`getListingInfo`: the `sections` array (absent when missing) and the result of
the optional chain `contact?.contactData?.agent?.name` (absent when any link of
the chain is missing or the name is not there). -/
structure ExposeDetailBody where
  sections : Option (List ExposeSection)
  agentName : Option (List Char)

/-- The record returned by `getListingInfo`.  `roomCount` is `none` for the
JavaScript `null` and otherwise carries the `parseInt` result, which can be
`NaN`. -/
structure ListingInfo where
  id : List Char
  roomCount : Option JSNum
  suburb : Option (List Char)
  salutation : Option Salutation

/-- Value of a nonempty leading digit run, base 10. -/
def digitsToNat (ds : List Char) : Nat :=
  ds.foldl (fun acc c => acc * 10 + (c.toNat - '0'.toNat)) 0

/-- Parse a leading digit run after the optional sign; no digits yields `NaN`. -/
def parseIntFrom (sign : Int) (t : List Char) : JSNum :=
  let ds := t.takeWhile Char.isDigit
  if ds.isEmpty then .nan else .fin (sign * (digitsToNat ds : Int))

/-- JavaScript `parseInt(text, 10)`: skip leading whitespace, read an optional
sign and then a leading decimal digit run; no digits (including the coerced
string of an absent `text`) gives `NaN`. -/
def parseIntJS : Option (List Char) → JSNum
  | none => .nan
  | some s =>
    let t := s.dropWhile isJSSpace
    match t with
    | '-' :: rest => parseIntFrom (-1) rest
    | '+' :: rest => parseIntFrom 1 rest
    | _ => parseIntFrom 1 t

/-- The expression `responseBody.sections?.find((section) => section.type === 'TOP_ATTRIBUTES')`. -/
def topAttributesSectionOf (body : ExposeDetailBody) : Option ExposeSection :=
  body.sections.bind (List.find? (fun sec => sec.type == "TOP_ATTRIBUTES".toList))

/-- The expression `topAttributesSection.attributes?.find((attr) => attr.label === 'Zimmer')`,
over the section found by `topAttributesSectionOf`. -/
def roomsAttributeOf (body : ExposeDetailBody) : Option ExposeAttribute :=
  (topAttributesSectionOf body).bind
    (fun sec => sec.attributes.bind (List.find? (fun attr => attr.label == some "Zimmer".toList)))

/-- The expression `responseBody.sections?.find((section) => section.type === 'MAP')?.location`. -/
def mapLocationOf (body : ExposeDetailBody) : Option ExposeLocation :=
  (body.sections.bind (List.find? (fun sec => sec.type == "MAP".toList))).bind
    (fun sec => sec.location)

/-- Embedding of the extraction part of `getListingInfo` from
`src/lib/provider/immoscout.js` (lines 114 to 155), after a successful detail
fetch: the room count from the `TOP_ATTRIBUTES` section via `parseInt`, the
suburb via `getSuburb` on the `MAP` section's coordinates (the geocoding
network call abstracted as the oracle `suburbOf`), and the salutation via
`parseSalutation` on the truthy agent name. -/
def getListingInfo (suburbOf : JSVal → JSVal → Option (List Char))
    (listingId : List Char) (body : ExposeDetailBody) : ListingInfo :=
  let roomCount :=
    match roomsAttributeOf body with
    | none => none
    | some roomsAttribute => some (parseIntJS roomsAttribute.text)
  let suburb :=
    match mapLocationOf body with
    | none => none
    | some loc => suburbOf loc.lat loc.lng
  let salutation :=
    match body.agentName with
    | none => none
    | some n => if jsTruthyStr n then parseSalutation (some n) else none
  { id := listingId, roomCount := roomCount, suburb := suburb, salutation := salutation }

/-- A discovered notification channel adapter: its `config.id` and its `send`
capability. -/
structure NotificationAdapter (P R : Type) where
  id : List Char
  send : P → R

/-- One entry of a job's notification configuration, identified by its `id`
(channel-specific settings are opaque). -/
structure ChannelConfig where
  id : List Char
  fields : List (List Char × List Char)
deriving DecidableEq, Repr

/-- The payload object `{serviceName, newListings, notificationConfig, jobKey}`
passed to each adapter's `send`. -/
structure SendPayload (L : Type) where
  serviceName : List Char
  newListings : L
  notificationConfig : List ChannelConfig
  jobKey : List Char

/-- The helper `findAdapter` of the notification dispatcher:
`adapters.find((a) => a.config.id === notificationAdapter.id)`. -/
def findAdapter (adapters : List (NotificationAdapter P R)) (notificationAdapter : ChannelConfig) :
    Option (NotificationAdapter P R) :=
  adapters.find? (fun a => a.id == notificationAdapter.id)

/-- Embedding of `send` from the notification dispatcher module: filter the
configured entries to those with a discovered adapter, look the adapter up
again, and invoke its `send` with the payload (which carries the full
configured list).  The unreachable `none` branch of the second map is kept as
an `Option` so the definition stays total. -/
def send (adapters : List (NotificationAdapter (SendPayload L) R))
    (serviceName : List Char) (newListings : L)
    (notificationConfig : List ChannelConfig) (jobKey : List Char) : List (Option R) :=
  ((notificationConfig.filter (fun na => (findAdapter adapters na).isSome)).map
      (fun na => findAdapter adapters na)).map
    (fun a => a.map (fun ad => ad.send ⟨serviceName, newListings, notificationConfig, jobKey⟩))

/-! Helper lemmas shared by the claim theorems. -/

/-- The id assigned by `normalize` is `buildHash` of the native id and price. -/
theorem normalize_id (o : RawItem) : (normalize o).id = buildHash o.id o.price := rfl

/-- Distinct prices receive distinct tags. -/
theorem priceTag_inj {p q : Option Nat} (he : priceTag p = priceTag q) : p = q := by
  cases p with
  | none =>
    cases q with
    | none => rfl
    | some m =>
      simp only [priceTag] at he
      injection he with h1 _
      exact absurd h1 (by decide)
  | some n =>
    cases q with
    | none =>
      simp only [priceTag] at he
      injection he with h1 _
      exact absurd h1 (by decide)
    | some m =>
      simp only [priceTag] at he
      injection he with _ h2
      have hl := congrArg List.length h2
      simp only [List.length_replicate] at hl
      exact congrArg Option.some hl

/-- The hash determines the price when the native id is fixed. -/
theorem buildHash_price_inj {i : List Char} {p q : Option Nat}
    (he : buildHash i p = buildHash i q) : p = q := by
  have h1 : priceTag p ++ [','] = priceTag q ++ [','] := by
    have := he
    simp only [buildHash] at this
    exact List.append_cancel_right this
  exact priceTag_inj (List.append_cancel_right h1)

/-- C1 (code bug evaluation): on an honorific followed by two name tokens the
source's `lastName` expression `match[1] && match[2] ? match[2] : match[1]`
always selects the first captured name token, so
`parseSalutation("Frau Erika Musterfrau")` yields last name `Erika`, not the
final token `Musterfrau` required by the specification. -/
theorem parseSalutation_frau_erika_first_token :
    parseSalutation (some "Frau Erika Musterfrau".toList)
        = some ⟨Gender.female, "Erika".toList⟩
  ∧ parseSalutation (some "Frau Erika Musterfrau".toList)
        ≠ some ⟨Gender.female, "Musterfrau".toList⟩ := by
  constructor
  · rfl
  · decide

/-- C8: `parseSalutation("Herr Mustermann")` classifies as male with last name
`Mustermann`; a corporate name, the empty string and a non-string input all
yield `null`; and in general every input on which neither the male nor the
female salutation pattern matches yields `null`. -/
theorem parseSalutation_examples_and_no_match :
    parseSalutation (some "Herr Mustermann".toList)
        = some ⟨Gender.male, "Mustermann".toList⟩
  ∧ parseSalutation (some "ImmoScout GmbH".toList) = none
  ∧ parseSalutation (some []) = none
  ∧ parseSalutation none = none
  ∧ (∀ s : List Char, matchHonorifics malePattern (jsTrim s) = none →
        matchHonorifics femalePattern (jsTrim s) = none →
        parseSalutation (some s) = none) := by
  refine ⟨by decide, by decide, rfl, rfl, fun s h1 h2 => ?_⟩
  cases hb : jsTruthyStr s <;> simp [parseSalutation, hb, h1, h2]

/-- Witness for C8: the universal no-match clause applied at a concrete
corporate contact name. -/
theorem parseSalutation_examples_and_no_match_witness :
    parseSalutation (some "Acme Corp".toList) = none :=
  parseSalutation_examples_and_no_match.2.2.2.2 "Acme Corp".toList (by decide) (by decide)

/-- C2: the id `normalize` assigns is a pure function of the pair (native id,
price) — raw items agreeing on both always receive the same id — and, for a
fixed native id, a different price always yields a different id. -/
theorem computeId_pure_and_price_sensitive :
    (∀ o1 o2 : RawItem, o1.id = o2.id → o1.price = o2.price →
        (normalize o1).id = (normalize o2).id)
  ∧ (∀ o1 o2 : RawItem, o1.id = o2.id → o1.price ≠ o2.price →
        (normalize o1).id ≠ (normalize o2).id) := by
  constructor
  · intro o1 o2 hid hp
    rw [normalize_id, normalize_id, hid, hp]
  · intro o1 o2 hid hp hne
    rw [normalize_id, normalize_id, hid] at hne
    exact hp (buildHash_price_inj hne)

/-- Witness for C2: two raw items with equal native id and price get the same
id, and a price change on the same native id changes the id. -/
theorem computeId_pure_and_price_sensitive_witness :
    (normalize ⟨"a1".toList, some 2, none, none, [], none⟩).id
        = (normalize ⟨"a1".toList, some 2, some 1, some "t".toList, [], none⟩).id
  ∧ (normalize ⟨"a1".toList, some 2, none, none, [], none⟩).id
        ≠ (normalize ⟨"a1".toList, some 3, none, none, [], none⟩).id :=
  ⟨computeId_pure_and_price_sensitive.1 _ _ rfl rfl,
   computeId_pure_and_price_sensitive.2 _ _ rfl (by decide)⟩

/-- C4: `normalize` never leaves the title or address null or undefined: both
come back as present strings, and a missing or empty raw title or address is
replaced by the fixed placeholder. -/
theorem normalize_title_address_never_null :
    (∀ o : RawItem, (normalize o).title.isSome ∧ (normalize o).address.isSome)
  ∧ (∀ o : RawItem, nullOrEmpty o.title = true →
        (normalize o).title = some "NO TITLE FOUND".toList)
  ∧ (∀ o : RawItem, nullOrEmpty o.address = true →
        (normalize o).address = some "NO ADDRESS FOUND".toList) := by
  refine ⟨fun o => ⟨?_, ?_⟩, fun o h => ?_, fun o h => ?_⟩ <;> simp [normalize, *]

/-- Witness for C4: a raw item with no title and an empty address gets both
placeholders. -/
theorem normalize_title_address_never_null_witness :
    (normalize ⟨"9".toList, none, none, none, [], some []⟩).title
        = some "NO TITLE FOUND".toList
  ∧ (normalize ⟨"9".toList, none, none, none, [], some []⟩).address
        = some "NO ADDRESS FOUND".toList :=
  ⟨normalize_title_address_never_null.2.1 _ rfl,
   normalize_title_address_never_null.2.2 _ rfl⟩

/-- C5 counterexample: `NaN` is of JavaScript type `number`, so
`reverseGeocode(NaN, 13)` passes both argument guards and proceeds to the
network fetch instead of returning `null` without a call. -/
theorem reverseGeocode_nan_reaches_fetch_cex :
    reverseGeocode (.jnum .nan) (.jnum (.fin 13)) ≠ GeoOutcome.nullNoCall :=
  fun h => GeoOutcome.noConfusion h

/-- C5 (amended): whenever either coordinate is `null`/`undefined` or not of
JavaScript type `number`, `reverseGeocode` returns `null` without making a
network call. -/
theorem reverseGeocode_guard_nullish_or_nonnumber (lat lon : JSVal)
    (h : looseEqNull lat = true ∨ looseEqNull lon = true
       ∨ typeofIsNumber lat = false ∨ typeofIsNumber lon = false) :
    reverseGeocode lat lon = GeoOutcome.nullNoCall := by
  rcases h with h | h | h | h <;>
    cases hA : looseEqNull lat <;> cases hB : looseEqNull lon <;>
      cases hC : typeofIsNumber lat <;> cases hD : typeofIsNumber lon <;>
        simp_all [reverseGeocode]

/-- Witness for C5 (amended): the specification's own examples, a `null`
latitude and a string latitude, both return `null` without a call. -/
theorem reverseGeocode_guard_nullish_or_nonnumber_witness :
    reverseGeocode JSVal.jnull (JSVal.jnum (JSNum.fin 13)) = GeoOutcome.nullNoCall
  ∧ reverseGeocode (JSVal.jstr ['x']) (JSVal.jnum (JSNum.fin 13)) = GeoOutcome.nullNoCall :=
  ⟨reverseGeocode_guard_nullish_or_nonnumber _ _ (Or.inl rfl),
   reverseGeocode_guard_nullish_or_nonnumber _ _ (Or.inr (Or.inr (Or.inl rfl)))⟩

/-- C3 counterexample: with a successful HTTP status but a response body of an
unexpected shape (an object without `resultListItems`), `getListings` throws a
`TypeError` from `.filter` on `undefined` instead of degrading to the empty
result. -/
theorem getListings_malformed_body_throws_cex :
    getListings ⟨true, .jobj []⟩ = .error .typeError
  ∧ getListings ⟨true, .jobj []⟩ ≠ .ok ([] : List RawSearchItem) :=
  ⟨rfl, fun h => Except.noConfusion h⟩

/-- C3 (amended): on a non-success HTTP status `getListings` returns the empty
sequence without throwing; but when the status is successful and the body's
`resultListItems` member is not an array (including a missing member), the
function throws instead of returning an empty result. -/
theorem getListings_nonsuccess_empty_malformed_throws (resp : FetchResponse) :
    (resp.ok = false → getListings resp = .ok [])
  ∧ (resp.ok = true →
      (∀ xs, getMember resp.body resultListItemsKey ≠ .ok (.jarr xs)) →
      ∃ e, getListings resp = .error e) := by
  constructor
  · intro h
    simp [getListings, h]
  · intro hok hmal
    cases hg : getMember resp.body resultListItemsKey with
    | error e => exact ⟨e, by simp [getListings, hok, hg]⟩
    | ok v =>
      cases v with
      | jarr xs => exact absurd hg (hmal xs)
      | jundefined => exact ⟨.typeError, by simp [getListings, hok, hg]⟩
      | jnull => exact ⟨.typeError, by simp [getListings, hok, hg]⟩
      | jbool b => exact ⟨.typeError, by simp [getListings, hok, hg]⟩
      | jnum n => exact ⟨.typeError, by simp [getListings, hok, hg]⟩
      | jstr s => exact ⟨.typeError, by simp [getListings, hok, hg]⟩
      | jobj fs => exact ⟨.typeError, by simp [getListings, hok, hg]⟩

/-- Witness for C3 (amended): a failed response yields the empty list, and a
successful response whose body is an object without `resultListItems` throws. -/
theorem getListings_nonsuccess_empty_malformed_throws_witness :
    getListings ⟨false, .jnull⟩ = .ok []
  ∧ ∃ e, getListings ⟨true, .jobj []⟩ = .error e :=
  ⟨(getListings_nonsuccess_empty_malformed_throws _).1 rfl,
   (getListings_nonsuccess_empty_malformed_throws _).2 rfl
     (fun _ h => JSVal.noConfusion (Except.ok.inj h))⟩

/-- C6 counterexample: a detail body whose `TOP_ATTRIBUTES` section has a
`Zimmer` attribute with non-numeric text yields `roomCount = NaN`, not the
`null` the claim requires. -/
theorem getListingInfo_unparsable_rooms_nan_cex :
    (getListingInfo (fun _ _ => none) "158382494".toList
        ⟨some [⟨"TOP_ATTRIBUTES".toList,
               some [⟨some "Zimmer".toList, some "abc".toList⟩], none⟩], none⟩).roomCount
      = some JSNum.nan
  ∧ (getListingInfo (fun _ _ => none) "158382494".toList
        ⟨some [⟨"TOP_ATTRIBUTES".toList,
               some [⟨some "Zimmer".toList, some "abc".toList⟩], none⟩], none⟩).roomCount
      ≠ none :=
  ⟨rfl, by decide⟩

/-- C6 (amended): when the rooms attribute is present but its text does not
parse as an integer, `roomCount` is `NaN` (not `null`, and no error is
thrown); and the three extractions are independent — room count and suburb
depend only on `sections`, the salutation only on the agent name — so failure
of one leaves the others unaffected. -/
theorem getListingInfo_roomCount_nan_and_independent :
    (∀ (f : JSVal → JSVal → Option (List Char)) (lid : List Char)
        (body : ExposeDetailBody) (attr : ExposeAttribute),
        roomsAttributeOf body = some attr → parseIntJS attr.text = JSNum.nan →
        (getListingInfo f lid body).roomCount = some JSNum.nan)
  ∧ (∀ (f : JSVal → JSVal → Option (List Char)) (lid : List Char)
        (b1 b2 : ExposeDetailBody), b1.sections = b2.sections →
        (getListingInfo f lid b1).roomCount = (getListingInfo f lid b2).roomCount
      ∧ (getListingInfo f lid b1).suburb = (getListingInfo f lid b2).suburb)
  ∧ (∀ (f g : JSVal → JSVal → Option (List Char)) (lid1 lid2 : List Char)
        (b1 b2 : ExposeDetailBody), b1.agentName = b2.agentName →
        (getListingInfo f lid1 b1).salutation = (getListingInfo g lid2 b2).salutation) := by
  refine ⟨fun f lid body attr h1 h2 => ?_, fun f lid b1 b2 h => ⟨?_, ?_⟩,
          fun f g lid1 lid2 b1 b2 h => ?_⟩
  · simp [getListingInfo, h1, h2]
  · simp [getListingInfo, roomsAttributeOf, topAttributesSectionOf, h]
  · simp [getListingInfo, mapLocationOf, h]
  · simp [getListingInfo, h]

/-- Witness for C6 (amended): an unparsable `Zimmer` text gives `NaN` even in
the presence of an agent name; room count is unchanged by the agent name; the
salutation is unchanged by the sections, the id and the geocoding oracle. -/
theorem getListingInfo_roomCount_nan_and_independent_witness :
    (getListingInfo (fun _ _ => none) "77".toList
        ⟨some [⟨"TOP_ATTRIBUTES".toList,
               some [⟨some "Zimmer".toList, some "x1".toList⟩], none⟩],
         some "Herr Mustermann".toList⟩).roomCount = some JSNum.nan
  ∧ (getListingInfo (fun _ _ => none) "1".toList
        ⟨none, some "Frau A".toList⟩).roomCount
      = (getListingInfo (fun _ _ => none) "1".toList ⟨none, none⟩).roomCount
  ∧ (getListingInfo (fun _ _ => some "X".toList) "1".toList
        ⟨none, some "Frau A B".toList⟩).salutation
      = (getListingInfo (fun _ _ => none) "2".toList
          ⟨some [], some "Frau A B".toList⟩).salutation :=
  ⟨getListingInfo_roomCount_nan_and_independent.1 _ _ _
      ⟨some "Zimmer".toList, some "x1".toList⟩ rfl rfl,
   (getListingInfo_roomCount_nan_and_independent.2.1 _ _ _ _ rfl).1,
   getListingInfo_roomCount_nan_and_independent.2.2 _ _ _ _ _ _ rfl⟩

/-- Filtering the configured entries to those with a discovered adapter and
then looking each adapter up again is the same as `filterMap` of the lookup. -/
theorem filter_map_findAdapter (adapters : List (NotificationAdapter P R))
    (l : List ChannelConfig) :
    (l.filter (fun na => (findAdapter adapters na).isSome)).map
        (fun na => findAdapter adapters na)
      = (l.filterMap (fun na => findAdapter adapters na)).map some := by
  induction l with
  | nil => rfl
  | cons c cs ih =>
    cases hf : findAdapter adapters c <;>
      simp [List.filter_cons, List.filterMap_cons, hf, ih]

/-- C7: `send` invokes exactly the adapters discovered for the configured
channel entries, in order: entries whose id matches no discovered adapter are
dropped, and every entry with a matching adapter leads to that adapter's `send`
being invoked with the full payload — so one unavailable channel never prevents
dispatch to the remaining valid channels. -/
theorem send_dispatches_exactly_matched (L R : Type)
    (adapters : List (NotificationAdapter (SendPayload L) R))
    (serviceName : List Char) (newListings : L)
    (notificationConfig : List ChannelConfig) (jobKey : List Char) :
    send adapters serviceName newListings notificationConfig jobKey
      = (notificationConfig.filterMap (fun na => findAdapter adapters na)).map
          (fun a => some (a.send ⟨serviceName, newListings, notificationConfig, jobKey⟩)) := by
  unfold send
  rw [filter_map_findAdapter, List.map_map]
  rfl

end Fredy
